import Mathlib

/-!
Verification of the fitness-tracker calculator (`homework.py`).

The numeric code is embedded shallowly over `ℚ`: every Python arithmetic
expression is translated term by term (Python floats become rationals, so the
formula-level claims are settled exactly; `x / 0` in Python raises, which is
modelled separately by the `Checked` variants returning `Option`).

The class hierarchy (`Training` with subclasses `Running`, `SportsWalking`,
`Swimming`) is flattened: each class becomes a structure carrying its dataclass
fields, and each method becomes a function in the matching namespace.  Methods
inherited from `Training` are instantiated with the attribute values Python's
lookup would find on that subclass (in particular `Swimming` overrides
`LEN_STEP` with `1.38`, so its inherited `get_distance` uses `1.38`).
-/

/-- Class-level constant `Training.M_IN_KM = 1000` (metres per kilometre). -/
def Training.M_IN_KM : ℚ := 1000

/-- Class-level constant `Training.LEN_STEP = 0.65` (step length in metres). -/
def Training.LEN_STEP : ℚ := 0.65

/-- Class-level constant `Training.MIN_IN_HOUR = 60.0` (minutes per hour). -/
def Training.MIN_IN_HOUR : ℚ := 60

/-- Dataclass fields of the base class `Training`: `action`, `duration`
(hours), `weight` (kg).  The Python annotation for `action` is `int`, but the
readings arrive from a plain numeric list, so all fields are embedded as `ℚ`. -/
structure Training where
  action : ℚ
  duration : ℚ
  weight : ℚ
deriving DecidableEq

/-- `Training.get_distance`: `action * LEN_STEP / M_IN_KM`. -/
def Training.get_distance (t : Training) : ℚ :=
  t.action * Training.LEN_STEP / Training.M_IN_KM

/-- `Training.get_mean_speed`: `get_distance() / duration`. -/
def Training.get_mean_speed (t : Training) : ℚ :=
  t.get_distance / t.duration

/-- Python semantics of `Training.get_mean_speed`: the division raises
`ZeroDivisionError` when `duration = 0` (there is no handler anywhere in the
program), modelled as `none`; otherwise it returns the quotient. -/
def Training.get_mean_speedChecked (t : Training) : Option ℚ :=
  if t.duration = 0 then none else some (t.get_distance / t.duration)

/-- Dataclass fields of `Running`.  `CALORIES_MEAN_SPEED_MULTIPLIER` and
`CALORIES_MEAN_SPEED_SHIFT` are declared without `ClassVar`, so the dataclass
decorator turns them into ordinary constructor fields with defaults `18.0`
and `1.79`. -/
structure Running where
  action : ℚ
  duration : ℚ
  weight : ℚ
  CALORIES_MEAN_SPEED_MULTIPLIER : ℚ := 18
  CALORIES_MEAN_SPEED_SHIFT : ℚ := 1.79
deriving DecidableEq

/-- `Running` inherits `get_distance`; `Running` does not override `LEN_STEP`,
so attribute lookup finds `Training.LEN_STEP = 0.65`. -/
def Running.get_distance (r : Running) : ℚ :=
  r.action * Training.LEN_STEP / Training.M_IN_KM

/-- `Running` inherits `get_mean_speed` from `Training`. -/
def Running.get_mean_speed (r : Running) : ℚ :=
  r.get_distance / r.duration

/-- `Running.get_spent_calories`:
`(MULTIPLIER * mean_speed + SHIFT) * weight / M_IN_KM * duration * MIN_IN_HOUR`,
where the two coefficients are the instance's own fields. -/
def Running.get_spent_calories (r : Running) : ℚ :=
  (r.CALORIES_MEAN_SPEED_MULTIPLIER * r.get_mean_speed
      + r.CALORIES_MEAN_SPEED_SHIFT)
    * r.weight / Training.M_IN_KM
    * r.duration * Training.MIN_IN_HOUR

/-- Class-level constant `SportsWalking.CALORIES_WEIGHT_MULTIPLIER = 0.035`. -/
def SportsWalking.CALORIES_WEIGHT_MULTIPLIER : ℚ := 0.035

/-- Class-level constant
`SportsWalking.CALORIES_SPEED_HEIGHT_MULTIPLIER = 0.029`. -/
def SportsWalking.CALORIES_SPEED_HEIGHT_MULTIPLIER : ℚ := 0.029

/-- Class-level constant `SportsWalking.KMH_IN_MSEC = 0.278`. -/
def SportsWalking.KMH_IN_MSEC : ℚ := 0.278

/-- Class-level constant `SportsWalking.CM_IN_M = 100.0`. -/
def SportsWalking.CM_IN_M : ℚ := 100

/-- Class-level constant `SportsWalking.POWER`; the source stores the float
`2.0` and uses it only as the exponent of `**`, which on these inputs agrees
with the natural-number power `2`. -/
def SportsWalking.POWER : ℕ := 2

/-- Dataclass fields of `SportsWalking`: the base fields plus `height` (cm).
All its constants are `ClassVar`, so they are not constructor fields. -/
structure SportsWalking where
  action : ℚ
  duration : ℚ
  weight : ℚ
  height : ℚ
deriving DecidableEq

/-- `SportsWalking` inherits `get_distance` with `LEN_STEP = 0.65`. -/
def SportsWalking.get_distance (t : SportsWalking) : ℚ :=
  t.action * Training.LEN_STEP / Training.M_IN_KM

/-- `SportsWalking` inherits `get_mean_speed` from `Training`. -/
def SportsWalking.get_mean_speed (t : SportsWalking) : ℚ :=
  t.get_distance / t.duration

/-- `SportsWalking.get_spent_calories`:
`(0.035*weight + ((0.278*mean_speed)**2 / (height/100)) * 0.029 * weight)
 * (60 * duration)`. -/
def SportsWalking.get_spent_calories (t : SportsWalking) : ℚ :=
  (SportsWalking.CALORIES_WEIGHT_MULTIPLIER * t.weight
      + ((SportsWalking.KMH_IN_MSEC * t.get_mean_speed) ^ SportsWalking.POWER
            / (t.height / SportsWalking.CM_IN_M))
        * SportsWalking.CALORIES_SPEED_HEIGHT_MULTIPLIER
        * t.weight)
    * (Training.MIN_IN_HOUR * t.duration)

/-- `Swimming` overrides the class attribute `LEN_STEP` with `1.38` (stroke
length instead of step length). -/
def Swimming.LEN_STEP : ℚ := 1.38

/-- Class-level constant `Swimming.CALORIES_MEAN_SPEED_SHIFT = 1.1`. -/
def Swimming.CALORIES_MEAN_SPEED_SHIFT : ℚ := 1.1

/-- Class-level constant `Swimming.CALORIES_WEIGHT_MULTIPLIER = 2.0`. -/
def Swimming.CALORIES_WEIGHT_MULTIPLIER : ℚ := 2

/-- Dataclass fields of `Swimming`: the base fields plus `length_pool` and
`count_pool`. -/
structure Swimming where
  action : ℚ
  duration : ℚ
  weight : ℚ
  length_pool : ℚ
  count_pool : ℚ
deriving DecidableEq

/-- `Swimming` inherits `get_distance` from `Training`, but Python attribute
lookup on `self.LEN_STEP` finds the override `Swimming.LEN_STEP = 1.38`. -/
def Swimming.get_distance (s : Swimming) : ℚ :=
  s.action * Swimming.LEN_STEP / Training.M_IN_KM

/-- `Swimming.get_mean_speed` (override):
`length_pool * count_pool / M_IN_KM / duration`. -/
def Swimming.get_mean_speed (s : Swimming) : ℚ :=
  s.length_pool * s.count_pool / Training.M_IN_KM / s.duration

/-- Python semantics of `Swimming.get_mean_speed`: `ZeroDivisionError`
(unhandled) when `duration = 0`, modelled as `none`. -/
def Swimming.get_mean_speedChecked (s : Swimming) : Option ℚ :=
  if s.duration = 0 then none
  else some (s.length_pool * s.count_pool / Training.M_IN_KM / s.duration)

/-- `Swimming.get_spent_calories`:
`(mean_speed + 1.1) * 2.0 * weight * duration`. -/
def Swimming.get_spent_calories (s : Swimming) : ℚ :=
  (s.get_mean_speed + Swimming.CALORIES_MEAN_SPEED_SHIFT)
    * Swimming.CALORIES_WEIGHT_MULTIPLIER
    * s.weight * s.duration

/-- Dataclass fields of `InfoMessage` (the constant `message` template field
always keeps its default — no caller passes it — so only the five data fields
are carried; `get_message` below applies the template). -/
structure InfoMessage where
  training_type : String
  duration : ℚ
  distance : ℚ
  speed : ℚ
  calories : ℚ

/-- Sign and integer part of the fixed-point rendering of the integer `n` of
thousandths: an optional minus sign followed by the decimal digits of
`|n| / 1000`. -/
def fmt3Sign (n : ℤ) : String :=
  (if n < 0 then "-" else "") ++ toString (n.natAbs / 1000)

/-- The three fractional digits of the fixed-point rendering of the integer
`n` of thousandths, zero-padded to width 3. -/
def fmt3Frac (n : ℤ) : String :=
  String.mk [Nat.digitChar (n.natAbs / 100 % 10),
             Nat.digitChar (n.natAbs / 10 % 10),
             Nat.digitChar (n.natAbs % 10)]

/-- Python's `format(x, ".3f")` fixed-point rendering, over `ℚ`: round the
value to the nearest thousandth and print it with exactly three digits after
the decimal point. -/
def fmt3 (q : ℚ) : String :=
  fmt3Sign (round (q * 1000)) ++ "." ++ fmt3Frac (round (q * 1000))

/-- `InfoMessage.get_message`: `self.message.format(**asdict(self))` where
`message` is the fixed default template; `str.format` substitutes each
placeholder once (no re-scanning of substituted text), so on this constant
template it is exactly this interleaving of the template's literal segments
with the five formatted field values, the numeric ones via `:.3f`. -/
def InfoMessage.get_message (m : InfoMessage) : String :=
  "Тип тренировки: " ++ m.training_type
    ++ "; Длительность: " ++ fmt3 m.duration
    ++ " ч.; Дистанция: " ++ fmt3 m.distance
    ++ " км; Ср. скорость: " ++ fmt3 m.speed
    ++ " км/ч; Потрачено ккал: " ++ fmt3 m.calories ++ "."

/-- `Running.show_training_info`: builds the `InfoMessage` with
`type(self).__name__ = "Running"` and the four computed figures. -/
def Running.show_training_info (r : Running) : InfoMessage :=
  ⟨"Running", r.duration, r.get_distance, r.get_mean_speed,
    r.get_spent_calories⟩

/-- `SportsWalking.show_training_info` (`__name__ = "SportsWalking"`). -/
def SportsWalking.show_training_info (t : SportsWalking) : InfoMessage :=
  ⟨"SportsWalking", t.duration, t.get_distance, t.get_mean_speed,
    t.get_spent_calories⟩

/-- `Swimming.show_training_info` (`__name__ = "Swimming"`). -/
def Swimming.show_training_info (s : Swimming) : InfoMessage :=
  ⟨"Swimming", s.duration, s.get_distance, s.get_mean_speed,
    s.get_spent_calories⟩

/-- The three constructed `Training` variants, as the dispatcher returns
them. -/
inductive Workout where
  | swimming : Swimming → Workout
  | running : Running → Workout
  | sportsWalking : SportsWalking → Workout
deriving DecidableEq

/-- `Swimming(*data)`: the dataclass constructor takes exactly the five
required positional fields; any other arity raises `TypeError`, modelled as
`none`. -/
def Swimming.ofData : List ℚ → Option Swimming
  | [a, d, w, lp, cp] => some ⟨a, d, w, lp, cp⟩
  | _ => none

/-- `Running(*data)`: three required positional fields, then the two calorie
coefficients as defaulted positional fields, so arities 3, 4 and 5 all
succeed; any other arity raises `TypeError`, modelled as `none`. -/
def Running.ofData : List ℚ → Option Running
  | [a, d, w] => some ⟨a, d, w, 18, 1.79⟩
  | [a, d, w, m] => some ⟨a, d, w, m, 1.79⟩
  | [a, d, w, m, sh] => some ⟨a, d, w, m, sh⟩
  | _ => none

/-- `SportsWalking(*data)`: exactly the four required positional fields;
any other arity raises `TypeError`, modelled as `none`. -/
def SportsWalking.ofData : List ℚ → Option SportsWalking
  | [a, d, w, h] => some ⟨a, d, w, h⟩
  | _ => none

/-- Outcome of `read_package`:
* `ok` — a constructed `Training` instance is returned;
* `printedNone` — the tag was missing from the dict, the `KeyError` was
  caught, the given text was printed, and the function fell off the end,
  implicitly returning `None`;
* `arityFailure` — the constructor raised an (uncaught) `TypeError` because
  the readings list did not match an accepted arity. -/
inductive ReadResult where
  | ok : Workout → ReadResult
  | printedNone : String → ReadResult
  | arityFailure : ReadResult
deriving DecidableEq

/-- The text printed on the `KeyError` path:
`f'Тип тренеровки, {error_message} не найден'`, where `str` of the caught
`KeyError` is the tag wrapped in single quotes. -/
def keyErrorText (tag : String) : String :=
  "Тип тренеровки, \x27" ++ tag ++ "\x27 не найден"

/-- `read_package(workout_type, data)`: looks the tag up in the dict
`{SWM: Swimming, RUN: Running, WLK: SportsWalking}` and calls the selected
constructor with `*data`; a `KeyError` (unknown tag) is caught, printed and
turned into an implicit `None` return, while a constructor `TypeError`
propagates. -/
def read_package (workout_type : String) (data : List ℚ) : ReadResult :=
  if workout_type = "SWM" then
    match Swimming.ofData data with
    | some s => .ok (.swimming s)
    | none => .arityFailure
  else if workout_type = "RUN" then
    match Running.ofData data with
    | some r => .ok (.running r)
    | none => .arityFailure
  else if workout_type = "WLK" then
    match SportsWalking.ofData data with
    | some t => .ok (.sportsWalking t)
    | none => .arityFailure
  else
    .printedNone (keyErrorText workout_type)

/-- Whether `read_package` returned a constructed instance. -/
def ReadResult.isOk : ReadResult → Bool
  | .ok _ => true
  | _ => false

/-- A string consisting of a decimal point followed by exactly three decimal
digits, preceded by anything: the shape required of each `:.3f`-rendered
field. -/
def threeDecimals (s : String) : Prop :=
  ∃ a b : String, s = a ++ "." ++ b ∧ b.length = 3 ∧ ∀ c ∈ b.data, c.isDigit

/-- Digit characters produced by `Nat.digitChar` on inputs below 10 satisfy
`Char.isDigit`. -/
theorem digitChar_isDigit_of_lt (k : ℕ) (h : k < 10) :
    (Nat.digitChar k).isDigit = true := by
  interval_cases k <;> decide

/-- Claim C1: for every `Running` instance (its calorie-coefficient fields at
their declared defaults `18.0` and `1.79`) with nonzero duration,
`get_spent_calories()` equals
`(18.0 * mean_speed + 1.79) * weight / 1000 * duration * 60`, where
`mean_speed = action * 0.65 / 1000 / duration`. -/
theorem running_spent_calories_formula (r : Running)
    (hm : r.CALORIES_MEAN_SPEED_MULTIPLIER = 18)
    (hs : r.CALORIES_MEAN_SPEED_SHIFT = 1.79)
    (_hd : r.duration ≠ 0) :
    r.get_spent_calories
      = (18 * (r.action * 0.65 / 1000 / r.duration) + 1.79)
          * r.weight / 1000 * r.duration * 60 := by
  simp only [Running.get_spent_calories, Running.get_mean_speed,
    Running.get_distance, Training.LEN_STEP, Training.M_IN_KM,
    Training.MIN_IN_HOUR, hm, hs]

/-- Witness for the Running calorie formula at `Running(15000, 1, 75)`. -/
theorem running_spent_calories_formula_witness :
    (Running.mk 15000 1 75 18 1.79).get_spent_calories
      = (18 * (15000 * 0.65 / 1000 / 1) + 1.79) * 75 / 1000 * 1 * 60 :=
  running_spent_calories_formula ⟨15000, 1, 75, 18, 1.79⟩ rfl rfl
    (by norm_num)

/-- Claim C2: for every `Swimming` instance with nonzero duration,
`get_mean_speed()` is `length_pool * count_pool / 1000 / duration` and does
not depend on `action`; on the record `("SWM", [720, 1, 80, 25, 40])` the
mean speed is `1.0` and `get_spent_calories()` is
`(1.0 + 1.1) * 2.0 * 80 * 1 = 336.0`. -/
theorem swimming_mean_speed_spec :
    (∀ s : Swimming, s.duration ≠ 0 →
        s.get_mean_speed = s.length_pool * s.count_pool / 1000 / s.duration)
      ∧ (∀ a d w lp cp a2 : ℚ,
          Swimming.get_mean_speed ⟨a, d, w, lp, cp⟩
            = Swimming.get_mean_speed ⟨a2, d, w, lp, cp⟩)
      ∧ Swimming.get_mean_speed ⟨720, 1, 80, 25, 40⟩ = 1
      ∧ Swimming.get_spent_calories ⟨720, 1, 80, 25, 40⟩ = 336 := by
  refine ⟨fun s _ => ?_, fun a d w lp cp a2 => ?_, ?_, ?_⟩
  · simp [Swimming.get_mean_speed, Training.M_IN_KM]
  · simp [Swimming.get_mean_speed]
  · norm_num [Swimming.get_mean_speed, Training.M_IN_KM]
  · norm_num [Swimming.get_spent_calories, Swimming.get_mean_speed,
      Training.M_IN_KM, Swimming.CALORIES_MEAN_SPEED_SHIFT,
      Swimming.CALORIES_WEIGHT_MULTIPLIER]

/-- Witness for the Swimming mean-speed formula at
`Swimming(720, 1, 80, 25, 40)`. -/
theorem swimming_mean_speed_spec_witness :
    Swimming.get_mean_speed ⟨720, 1, 80, 25, 40⟩ = 25 * 40 / 1000 / 1 :=
  swimming_mean_speed_spec.1 ⟨720, 1, 80, 25, 40⟩ (by norm_num)

/-- Claim C3: for every `SportsWalking` instance, `get_spent_calories()`
equals
`(0.035*weight + ((mean_speed*0.278)^2 / (height/100)) * 0.029 * weight)
 * (duration * 60)`, where `mean_speed = action * 0.65 / 1000 / duration`. -/
theorem sports_walking_calories_formula (t : SportsWalking) :
    t.get_spent_calories
      = (0.035 * t.weight
          + ((t.action * 0.65 / 1000 / t.duration * 0.278) ^ 2
                / (t.height / 100)) * 0.029 * t.weight)
        * (t.duration * 60) := by
  simp only [SportsWalking.get_spent_calories, SportsWalking.get_mean_speed,
    SportsWalking.get_distance, SportsWalking.CALORIES_WEIGHT_MULTIPLIER,
    SportsWalking.CALORIES_SPEED_HEIGHT_MULTIPLIER,
    SportsWalking.KMH_IN_MSEC, SportsWalking.CM_IN_M, SportsWalking.POWER,
    Training.LEN_STEP, Training.M_IN_KM, Training.MIN_IN_HOUR]
  ring

/-- Counterexample to claim C4: `Swimming.get_distance` does not use the
default step length `0.65` — Python attribute lookup finds the override
`Swimming.LEN_STEP = 1.38` — so on `Swimming(720, 1, 80, 25, 40)` the
distance is `720 * 1.38 / 1000 = 0.9936`, not `720 * 0.65 / 1000`. -/
theorem swimming_distance_not_default_step :
    Swimming.get_distance ⟨720, 1, 80, 25, 40⟩ = 0.9936
      ∧ Swimming.get_distance ⟨720, 1, 80, 25, 40⟩ ≠ 720 * 0.65 / 1000 := by
  constructor <;>
    norm_num [Swimming.get_distance, Swimming.LEN_STEP, Training.M_IN_KM]

/-- Claim C4 (amended): `Running` and `SportsWalking` compute
`get_distance() = action * 0.65 / 1000`; `Swimming.get_distance()` uses the
overridden stroke length `1.38`, giving `action * 1.38 / 1000`. -/
theorem get_distance_formulas :
    (∀ r : Running, r.get_distance = r.action * 0.65 / 1000)
      ∧ (∀ t : SportsWalking, t.get_distance = t.action * 0.65 / 1000)
      ∧ (∀ s : Swimming, s.get_distance = s.action * 1.38 / 1000) := by
  refine ⟨fun r => ?_, fun t => ?_, fun s => ?_⟩ <;>
    norm_num [Running.get_distance, SportsWalking.get_distance,
      Swimming.get_distance, Training.LEN_STEP, Swimming.LEN_STEP,
      Training.M_IN_KM]

/-- Claim C5 (evaluated at the failing input): on the unknown tag `"XYZ"`,
`read_package` catches the `KeyError`, prints the message naming the tag, and
implicitly returns `None` — an unusable value handed downstream — instead of
signalling an explicit failure. -/
theorem read_package_unknown_tag_prints_and_returns_none :
    read_package "XYZ" [1, 2, 3]
      = .printedNone "Тип тренеровки, \x27XYZ\x27 не найден" := by
  rfl

/-- Counterexample to claim C6: `read_package("RUN", _)` does not fail on a
readings list of length 4 — the fourth reading binds to the defaulted
coefficient field `CALORIES_MEAN_SPEED_MULTIPLIER` and construction
succeeds. -/
theorem run_arity_four_constructs :
    read_package "RUN" [15000, 1, 75, 100]
      = .ok (.running ⟨15000, 1, 75, 100, 1.79⟩) := by
  rfl

/-- Claim C6 (amended): construction succeeds exactly when the readings list
has length 5 for `"SWM"` and length 4 for `"WLK"`; for `"RUN"` it succeeds
exactly on lengths 3, 4 and 5, because `Running`'s two calorie coefficients
are defaulted constructor fields that absorb a 4th and 5th reading. -/
theorem read_package_arity (data : List ℚ) :
    ((read_package "SWM" data).isOk = true ↔ data.length = 5)
      ∧ ((read_package "WLK" data).isOk = true ↔ data.length = 4)
      ∧ ((read_package "RUN" data).isOk = true
          ↔ (data.length = 3 ∨ data.length = 4 ∨ data.length = 5)) := by
  rcases data with _ | ⟨a, _ | ⟨b, _ | ⟨c, _ | ⟨d, _ | ⟨e, _ | ⟨f, rest⟩⟩⟩⟩⟩⟩ <;>
    simp [read_package, Swimming.ofData, Running.ofData,
      SportsWalking.ofData, ReadResult.isOk]

/-- Claim C7: for the known tags `"RUN"` and `"WLK"` with readings of the
correct arity, `read_package` returns the matching variant with the readings
bound positionally; in particular `read_package("RUN", [15000, 1, 75])`
constructs `Running(action=15000, duration=1, weight=75)` (coefficients at
their defaults). -/
theorem read_package_known_tags :
    (∀ a d w : ℚ, read_package "RUN" [a, d, w]
        = .ok (.running ⟨a, d, w, 18, 1.79⟩))
      ∧ (∀ a d w h : ℚ, read_package "WLK" [a, d, w, h]
          = .ok (.sportsWalking ⟨a, d, w, h⟩))
      ∧ read_package "RUN" [15000, 1, 75]
          = .ok (.running ⟨15000, 1, 75, 18, 1.79⟩) :=
  ⟨fun _ _ _ => rfl, fun _ _ _ _ => rfl, rfl⟩

/-- Claim C8: `get_message()` instantiates the fixed template
`Тип тренировки: ...; Длительность: ... ч.; Дистанция: ... км; Ср. скорость:
... км/ч; Потрачено ккал: ... .` with the fields in the fixed order type;
duration; distance; speed; calories, each numeric value rendered with exactly
three digits after the decimal point; on the sample Running summary this
yields the exact output line. -/
theorem get_message_template :
    (∀ m : InfoMessage,
        m.get_message
          = "Тип тренировки: " ++ m.training_type
              ++ "; Длительность: " ++ fmt3 m.duration
              ++ " ч.; Дистанция: " ++ fmt3 m.distance
              ++ " км; Ср. скорость: " ++ fmt3 m.speed
              ++ " км/ч; Потрачено ккал: " ++ fmt3 m.calories ++ ".")
      ∧ (∀ q : ℚ, threeDecimals (fmt3 q))
      ∧ (Running.show_training_info ⟨15000, 1, 75, 18, 1.79⟩).get_message
          = "Тип тренировки: Running; Длительность: 1.000 ч.; Дистанция: 9.750 км; Ср. скорость: 9.750 км/ч; Потрачено ккал: 797.805." := by
  refine ⟨fun m => rfl, fun q => ?_, ?_⟩
  · refine ⟨fmt3Sign (round (q * 1000)), fmt3Frac (round (q * 1000)),
      rfl, rfl, ?_⟩
    intro c hc
    simp only [fmt3Frac, List.mem_cons, List.not_mem_nil, or_false] at hc
    rcases hc with rfl | rfl | rfl <;>
      exact digitChar_isDigit_of_lt _ (Nat.mod_lt _ (by norm_num))
  · rw [show Running.show_training_info ⟨15000, 1, 75, 18, 1.79⟩
        = ⟨"Running", 1, 9.75, 9.75, 797.805⟩ from by
      norm_num [Running.show_training_info, Running.get_distance,
        Running.get_mean_speed, Running.get_spent_calories,
        Training.LEN_STEP, Training.M_IN_KM, Training.MIN_IN_HOUR]]
    have r1 : round ((1 : ℚ) * 1000) = 1000 := by rw [round_eq]; norm_num
    have r2 : round ((9.75 : ℚ) * 1000) = 9750 := by rw [round_eq]; norm_num
    have r3 : round ((797.805 : ℚ) * 1000) = 797805 := by
      rw [round_eq]; norm_num
    simp only [InfoMessage.get_message, fmt3, r1, r2, r3]
    decide

/-- Claim C9: recomputation of the mean speed only fails by division by zero
at `duration = 0`: with nonzero duration the checked (Python-semantics)
computation returns exactly the pure value, for any values of the other
fields, while at `duration = 0` the `ZeroDivisionError` branch is reached and
nothing handles it. -/
theorem mean_speed_division_by_zero :
    (∀ t : Training,
        (t.duration ≠ 0 → t.get_mean_speedChecked = some t.get_mean_speed)
          ∧ (t.duration = 0 → t.get_mean_speedChecked = none))
      ∧ (∀ s : Swimming,
          (s.duration ≠ 0 → s.get_mean_speedChecked = some s.get_mean_speed)
            ∧ (s.duration = 0 → s.get_mean_speedChecked = none)) := by
  refine ⟨fun t => ⟨fun h => ?_, fun h => ?_⟩, fun s => ⟨fun h => ?_, fun h => ?_⟩⟩
  · simp [Training.get_mean_speedChecked, Training.get_mean_speed, h]
  · simp [Training.get_mean_speedChecked, h]
  · simp [Swimming.get_mean_speedChecked, Swimming.get_mean_speed, h]
  · simp [Swimming.get_mean_speedChecked, h]

/-- Witness for the division-by-zero claim: a `Training` with duration 1 is
computed, and both a `Training` and a `Swimming` with duration 0 hit the
unhandled division. -/
theorem mean_speed_division_by_zero_witness :
    Training.get_mean_speedChecked ⟨15000, 1, 75⟩
        = some (Training.get_mean_speed ⟨15000, 1, 75⟩)
      ∧ Training.get_mean_speedChecked ⟨15000, 0, 75⟩ = none
      ∧ Swimming.get_mean_speedChecked ⟨720, 0, 80, 25, 40⟩ = none :=
  ⟨(mean_speed_division_by_zero.1 ⟨15000, 1, 75⟩).1 (by norm_num),
   (mean_speed_division_by_zero.1 ⟨15000, 0, 75⟩).2 rfl,
   (mean_speed_division_by_zero.2 ⟨720, 0, 80, 25, 40⟩).2 rfl⟩

/-- Claim C10: `Running`'s calorie coefficients are defaulted constructor
fields, so `read_package("RUN", data)` succeeds on lengths 3, 4 and 5, a 4th
reading replaces `CALORIES_MEAN_SPEED_MULTIPLIER` and a 5th replaces
`CALORIES_MEAN_SPEED_SHIFT` without any failure, and an overridden multiplier
changes the calorie result. -/
theorem running_extra_readings_override_coefficients :
    (∀ a d w : ℚ, read_package "RUN" [a, d, w]
        = .ok (.running ⟨a, d, w, 18, 1.79⟩))
      ∧ (∀ a d w m : ℚ, read_package "RUN" [a, d, w, m]
          = .ok (.running ⟨a, d, w, m, 1.79⟩))
      ∧ (∀ a d w m sh : ℚ, read_package "RUN" [a, d, w, m, sh]
          = .ok (.running ⟨a, d, w, m, sh⟩))
      ∧ Running.get_spent_calories ⟨15000, 1, 75, 30, 1.79⟩
          ≠ Running.get_spent_calories ⟨15000, 1, 75, 18, 1.79⟩ := by
  refine ⟨fun _ _ _ => rfl, fun _ _ _ _ => rfl, fun _ _ _ _ _ => rfl, ?_⟩
  norm_num [Running.get_spent_calories, Running.get_mean_speed,
    Running.get_distance, Training.LEN_STEP, Training.M_IN_KM,
    Training.MIN_IN_HOUR]

/-- Witness for the walking calorie formula at
`SportsWalking(9000, 1, 75, 180)`. -/
theorem sports_walking_calories_formula_witness :
    SportsWalking.get_spent_calories ⟨9000, 1, 75, 180⟩
      = (0.035 * 75
          + ((9000 * 0.65 / 1000 / 1 * 0.278) ^ 2 / (180 / 100))
              * 0.029 * 75)
        * (1 * 60) :=
  sports_walking_calories_formula ⟨9000, 1, 75, 180⟩

/-- Witness for the distance formulas at two sample records. -/
theorem get_distance_formulas_witness :
    Running.get_distance ⟨15000, 1, 75, 18, 1.79⟩ = 15000 * 0.65 / 1000
      ∧ Swimming.get_distance ⟨720, 1, 80, 25, 40⟩ = 720 * 1.38 / 1000 :=
  ⟨get_distance_formulas.1 ⟨15000, 1, 75, 18, 1.79⟩,
   get_distance_formulas.2.2 ⟨720, 1, 80, 25, 40⟩⟩

/-- Witness for the arity characterization: a length-5 `"SWM"` list and a
length-3 `"RUN"` list both construct. -/
theorem read_package_arity_witness :
    (read_package "SWM" [720, 1, 80, 25, 40]).isOk = true
      ∧ (read_package "RUN" [15000, 1, 75]).isOk = true :=
  ⟨(read_package_arity [720, 1, 80, 25, 40]).1.mpr rfl,
   (read_package_arity [15000, 1, 75]).2.2.mpr (Or.inl rfl)⟩

/-- Witness for the dispatcher at `("WLK", [9000, 1, 75, 180])`. -/
theorem read_package_known_tags_witness :
    read_package "WLK" [9000, 1, 75, 180]
      = .ok (.sportsWalking ⟨9000, 1, 75, 180⟩) :=
  read_package_known_tags.2.1 9000 1 75 180

/-- Witness for the formatting claim: a concrete rendered value has exactly
three decimal digits. -/
theorem get_message_template_witness :
    threeDecimals (fmt3 (9.75 : ℚ)) :=
  get_message_template.2.1 9.75

/-- Witness for the coefficient-override behaviour at a concrete length-4
record. -/
theorem running_extra_readings_override_coefficients_witness :
    read_package "RUN" [15000, 1, 75, 30]
      = .ok (.running ⟨15000, 1, 75, 30, 1.79⟩) :=
  running_extra_readings_override_coefficients.2.1 15000 1 75 30
